import Mathlib

/-
  Verification of the Archon multi-user authorization model.

  The definitions below are shallow embeddings of:
  - the SQL helper functions and role-management functions in
    `migration/multi_user_auth.sql` (`has_role`, `is_admin`,
    `current_user_role`, `handle_new_user`, `update_user_role`,
    `deactivate_user`);
  - the RLS helper predicates in `migration/update_rls_policies.sql`
    (`user_can_view`, `user_can_edit`);
  - the ownership-sync triggers and `transfer_user_data` in the
    user-id-columns migration;
  - the client-side permission mirror in
    `archon-ui-main/src/contexts/AuthContext.tsx` (`hasRole`, `isAdmin`,
    `hasPermission`) and the `ProtectedRoute` guard component.

  SQL NULL-able uuid columns become `Option Nat`; `auth.uid()` becomes an
  explicit `uid : Nat` parameter; table rows become structures and tables
  become lists of rows (the primary-key constraint becomes a `Nodup`
  hypothesis on the list of ids where a proof needs it).
-/

namespace Archon

/-- Row of the `user_profiles` table: id (PK), email, role (TEXT with a
CHECK constraint restricting it to admin/user/viewer/guest), is_active. -/
structure UserProfile where
  id : Nat
  email : String
  role : String
  is_active : Bool
  deriving Repr, DecidableEq

/-- The `user_profiles` table, as a list of rows. -/
abbrev ProfileTable := List UserProfile

/-- Embedding of SQL `public.has_role(required_role)`: EXISTS a profile row
with `id = auth.uid() AND role = required_role AND is_active = true`. -/
def has_role (ps : ProfileTable) (uid : Nat) (required_role : String) : Bool :=
  ps.any (fun p => p.id == uid && p.role == required_role && p.is_active)

/-- Embedding of SQL `public.is_admin()`: `has_role('admin')`. -/
def is_admin (ps : ProfileTable) (uid : Nat) : Bool :=
  has_role ps uid "admin"

/-- Embedding of SQL `public.current_user_role()`: SELECT role FROM
user_profiles WHERE id = auth.uid() AND is_active = true (NULL when the
subject is absent or inactive). -/
def current_user_role (ps : ProfileTable) (uid : Nat) : Option String :=
  (ps.find? (fun p => p.id == uid && p.is_active)).map (fun p => p.role)

/-- Embedding of SQL `user_can_view(resource_user_id, assigned_user_id)`:
owner, or assignee, or (effective) role in {admin, viewer}, or unowned
resource. A NULL-valued SQL comparison is falsy, matching
`some uid == none = false`. -/
def user_can_view (ps : ProfileTable) (uid : Nat)
    (resource_user_id assigned_user_id : Option Nat) : Bool :=
  (some uid == resource_user_id) ||
  (some uid == assigned_user_id) ||
  (match current_user_role ps uid with
   | some r => r == "admin" || r == "viewer"
   | none => false) ||
  (resource_user_id == none)

/-- Embedding of SQL `user_can_edit(resource_user_id, assigned_user_id)`:
owner, or assignee, or (effective) role admin. -/
def user_can_edit (ps : ProfileTable) (uid : Nat)
    (resource_user_id assigned_user_id : Option Nat) : Bool :=
  (some uid == resource_user_id) ||
  (some uid == assigned_user_id) ||
  (match current_user_role ps uid with
   | some r => r == "admin"
   | none => false)

/-- Embedding of SQL `handle_new_user` (the AFTER INSERT trigger on
auth.users): insert a profile whose role is 'admin' when the profiles
table is empty (COUNT(*) = 0), else 'user'; is_active defaults to true. -/
def handle_new_user (ps : ProfileTable) (new_id : Nat) (new_email : String) :
    ProfileTable :=
  ps ++ [⟨new_id, new_email, if ps.length == 0 then "admin" else "user", true⟩]

/-- Chain of registrations starting from an empty `user_profiles` table. -/
def registerAll (regs : List (Nat × String)) : ProfileTable :=
  regs.foldl (fun ps r => handle_new_user ps r.1 r.2) []

/-- Count of rows with `role = 'admin' AND is_active = true`. -/
def activeAdminCount (ps : ProfileTable) : Nat :=
  ps.countP (fun p => p.role == "admin" && p.is_active)

/-- Role validation set of `update_user_role`. -/
def validRole (r : String) : Bool :=
  r == "admin" || r == "user" || r == "viewer" || r == "guest"

/-- SELECT role FROM user_profiles WHERE id = target (no active filter),
as used by the last-admin check inside `update_user_role`. -/
def storedRole (ps : ProfileTable) (uid : Nat) : Option String :=
  (ps.find? (fun p => p.id == uid)).map (fun p => p.role)

/-- SELECT role FROM user_profiles WHERE id = target AND is_active = true,
as used by the last-admin check inside `deactivate_user`. -/
def activeStoredRole (ps : ProfileTable) (uid : Nat) : Option String :=
  (ps.find? (fun p => p.id == uid && p.is_active)).map (fun p => p.role)

/-- Typed errors raised by the SQL mutation functions. -/
inductive AuthError where
  | notAdmin
  | invalidRole
  | lastAdmin
  | transferDenied
  | noSuchUser
  deriving Repr, DecidableEq

/-- The UPDATE statement of `update_user_role`: set role = new_role WHERE
id = target. -/
def forceUpdateRole (ps : ProfileTable) (target : Nat) (new_role : String) :
    ProfileTable :=
  ps.map (fun p => if p.id == target then { p with role := new_role } else p)

/-- The UPDATE statement of `deactivate_user`: set is_active = false WHERE
id = target. -/
def forceDeactivate (ps : ProfileTable) (target : Nat) : ProfileTable :=
  ps.map (fun p => if p.id == target then { p with is_active := false } else p)

/-- Embedding of SQL `update_user_role(target_user_id, new_role)` invoked
by `caller`: admin check, role validation, last-admin check (count of
active admins is 1 and the target's stored role is 'admin'), then UPDATE.
A raised exception becomes `Except.error` and aborts before any UPDATE. -/
def update_user_role (ps : ProfileTable) (caller target : Nat)
    (new_role : String) : Except AuthError ProfileTable :=
  if !(is_admin ps caller) then Except.error AuthError.notAdmin
  else if !(validRole new_role) then Except.error AuthError.invalidRole
  else if new_role != "admin" && activeAdminCount ps == 1 &&
          storedRole ps target == some "admin" then
    Except.error AuthError.lastAdmin
  else Except.ok (forceUpdateRole ps target new_role)

/-- Embedding of SQL `deactivate_user(target_user_id)` invoked by `caller`:
admin check, last-admin check (count of active admins is 1 and the target
is an active admin), then UPDATE. -/
def deactivate_user (ps : ProfileTable) (caller target : Nat) :
    Except AuthError ProfileTable :=
  if !(is_admin ps caller) then Except.error AuthError.notAdmin
  else if activeAdminCount ps == 1 &&
          activeStoredRole ps target == some "admin" then
    Except.error AuthError.lastAdmin
  else Except.ok (forceDeactivate ps target)

/-- A role-change or deactivation request, tagged with its caller. -/
inductive AdminOp where
  | updateRole (caller target : Nat) (new_role : String)
  | deactivate (caller target : Nat)
  deriving Repr, DecidableEq

/-- Apply one operation; a rejected (error) operation leaves the table
unchanged, matching the transaction-abort semantics of RAISE EXCEPTION. -/
def applyOp (ps : ProfileTable) : AdminOp → ProfileTable
  | AdminOp.updateRole c t r =>
      match update_user_role ps c t r with
      | Except.ok ps2 => ps2
      | Except.error _ => ps
  | AdminOp.deactivate c t =>
      match deactivate_user ps c t with
      | Except.ok ps2 => ps2
      | Except.error _ => ps

/-- Run a sequence of role-change/deactivation operations. -/
def runOps (ps : ProfileTable) (ops : List AdminOp) : ProfileTable :=
  ops.foldl applyOp ps

/-
  Client-side mirror: `AuthContext.tsx`.
-/

/-- The loaded client profile (`UserProfile` interface in AuthContext.tsx);
id is the Supabase user-id string, role is the role string. -/
structure ClientProfile where
  id : String
  role : String
  is_active : Bool
  deriving Repr, DecidableEq

/-- Embedding of the client `hasRole(role)`: `profile?.role === role`
(false when no profile is loaded). -/
def hasRole (profile : Option ClientProfile) (role : String) : Bool :=
  match profile with
  | none => false
  | some p => p.role == role

/-- Embedding of the client `isAdmin()`: `profile?.role === 'admin'`.
Note: the client checks only the stored role, not `is_active`. -/
def isAdmin (profile : Option ClientProfile) : Bool :=
  match profile with
  | none => false
  | some p => p.role == "admin"

/-- Embedding of the client `hasPermission(resource, action)`: false with
no profile; admin grants everything; 'user' grants actions
create/read/update on any resource; 'viewer' grants read on any resource;
'guest' grants read only on resources 'knowledge' and 'projects'. -/
def hasPermission (profile : Option ClientProfile)
    (resource action : String) : Bool :=
  match profile with
  | none => false
  | some p =>
    if p.role == "admin" then true
    else if p.role == "user" then
      ["create", "read", "update"].contains action
    else if p.role == "viewer" then action == "read"
    else if p.role == "guest" then
      action == "read" && ["knowledge", "projects"].contains resource
    else false

/-- Render outcome of the `ProtectedRoute` guard component. -/
inductive RouteOutcome where
  | loadingSpinner
  | redirectToLogin (fromLocation : String)
  | roleDenied (required actual : String)
  | permissionDenied (resource action actual : String)
  | fallbackView
  | renderChildren
  deriving Repr, DecidableEq

/-- Props of `ProtectedRoute` (requireAuth defaults to true). -/
structure RouteProps where
  requireAuth : Bool := true
  requiredRole : Option String := none
  requiredPermission : Option (String × String) := none
  hasFallback : Bool := false
  deriving Repr, DecidableEq

/-- The "Ваша роль" text: `profile?.role || 'не определена'`. -/
def profileRoleText (profile : Option ClientProfile) : String :=
  match profile with
  | some p => p.role
  | none => "не определена"

/-- Embedding of the `ProtectedRoute` component body: loading spinner;
redirect to /login carrying the current location when auth is required
and there is no user; inline role denial naming the required and actual
role; inline permission denial naming resource, action and actual role;
otherwise render the protected children. The component has no branch
inspecting `profile.is_active`. -/
def ProtectedRoute (props : RouteProps) (loading : Bool)
    (user : Option String) (profile : Option ClientProfile)
    (location : String) : RouteOutcome :=
  if loading then RouteOutcome.loadingSpinner
  else if props.requireAuth && user == none then
    RouteOutcome.redirectToLogin location
  else
    match props.requiredRole with
    | some r =>
      if !(hasRole profile r) then
        if props.hasFallback then RouteOutcome.fallbackView
        else RouteOutcome.roleDenied r (profileRoleText profile)
      else
        match props.requiredPermission with
        | some (res, act) =>
          if !(hasPermission profile res act) then
            if props.hasFallback then RouteOutcome.fallbackView
            else RouteOutcome.permissionDenied res act (profileRoleText profile)
          else RouteOutcome.renderChildren
        | none => RouteOutcome.renderChildren
    | none =>
      match props.requiredPermission with
      | some (res, act) =>
        if !(hasPermission profile res act) then
          if props.hasFallback then RouteOutcome.fallbackView
          else RouteOutcome.permissionDenied res act (profileRoleText profile)
        else RouteOutcome.renderChildren
      | none => RouteOutcome.renderChildren

/-- Role requirement of the `RoleGuard` component: a single role string or
an array of alternatives. -/
inductive RoleReq where
  | single (r : String)
  | anyOf (rs : List String)
  deriving Repr, DecidableEq

/-- Embedding of `RoleGuard.hasRequiredRole`: `hasRole` on a single role,
`requiredRole.some(role => hasRole(role))` on an array. -/
def hasRequiredRole (profile : Option ClientProfile) : RoleReq → Bool
  | RoleReq.single r => hasRole profile r
  | RoleReq.anyOf rs => rs.any (fun r => hasRole profile r)

/-
  Resource tables with owner columns
  (user-id-columns migration: src/unnamed/part_000).
-/

/-- Row of `archon_sources`: source_id (PK) and nullable owner. -/
structure SourceRow where
  source_id : Nat
  user_id : Option Nat
  deriving Repr, DecidableEq

/-- Row of `archon_crawled_pages`: id, parent source, denormalized owner. -/
structure CrawledPageRow where
  id : Nat
  source_id : Nat
  user_id : Option Nat
  deriving Repr, DecidableEq

/-- Row of `archon_projects`: id (PK) and nullable owner. -/
structure ProjectRow where
  id : Nat
  user_id : Option Nat
  deriving Repr, DecidableEq

/-- Row of `archon_tasks`: id, parent project, owner, optional assignee. -/
structure TaskRow where
  id : Nat
  project_id : Nat
  user_id : Option Nat
  assigned_user_id : Option Nat
  deriving Repr, DecidableEq

/-- Row of `archon_project_sources`: id, parent project, owner. -/
structure ProjectSourceRow where
  id : Nat
  project_id : Nat
  user_id : Option Nat
  deriving Repr, DecidableEq

/-- Row of a resource table carrying only an id and an owner
(`archon_code_examples`, `archon_document_versions`, `archon_prompts`). -/
structure SimpleRow where
  id : Nat
  user_id : Option Nat
  deriving Repr, DecidableEq

/-- The database state touched by the ownership operations. -/
structure Database where
  user_profiles : ProfileTable
  archon_sources : List SourceRow
  archon_crawled_pages : List CrawledPageRow
  archon_code_examples : List SimpleRow
  archon_projects : List ProjectRow
  archon_tasks : List TaskRow
  archon_project_sources : List ProjectSourceRow
  archon_document_versions : List SimpleRow
  archon_prompts : List SimpleRow
  deriving Repr, DecidableEq

/-- Embedding of `transfer_user_data(from_user_id, to_user_id)` invoked by
`caller`: admin check, existence check for both subjects, then the eight
UPDATE statements re-owning every row with `user_id = from_user_id`. A
raised exception aborts the whole transaction, so the error cases return
before any mutation. -/
def transfer_user_data (db : Database) (caller from_user_id to_user_id : Nat) :
    Except AuthError Database :=
  if !(is_admin db.user_profiles caller) then
    Except.error AuthError.transferDenied
  else if !(db.user_profiles.any (fun p => p.id == from_user_id)) ||
          !(db.user_profiles.any (fun p => p.id == to_user_id)) then
    Except.error AuthError.noSuchUser
  else
    Except.ok { db with
      archon_sources := db.archon_sources.map (fun r =>
        if r.user_id == some from_user_id then { r with user_id := some to_user_id } else r),
      archon_crawled_pages := db.archon_crawled_pages.map (fun r =>
        if r.user_id == some from_user_id then { r with user_id := some to_user_id } else r),
      archon_code_examples := db.archon_code_examples.map (fun r =>
        if r.user_id == some from_user_id then { r with user_id := some to_user_id } else r),
      archon_projects := db.archon_projects.map (fun r =>
        if r.user_id == some from_user_id then { r with user_id := some to_user_id } else r),
      archon_tasks := db.archon_tasks.map (fun r =>
        if r.user_id == some from_user_id then { r with user_id := some to_user_id } else r),
      archon_project_sources := db.archon_project_sources.map (fun r =>
        if r.user_id == some from_user_id then { r with user_id := some to_user_id } else r),
      archon_document_versions := db.archon_document_versions.map (fun r =>
        if r.user_id == some from_user_id then { r with user_id := some to_user_id } else r),
      archon_prompts := db.archon_prompts.map (fun r =>
        if r.user_id == some from_user_id then { r with user_id := some to_user_id } else r) }

/-- State after a transfer attempt: the new database on success, the old
one when the transaction aborted. -/
def runTransfer (db : Database) (caller from_user_id to_user_id : Nat) :
    Database :=
  match transfer_user_data db caller from_user_id to_user_id with
  | Except.ok db2 => db2
  | Except.error _ => db

/-- Embedding of an UPDATE of `archon_sources.user_id` for one source id,
followed by the AFTER UPDATE trigger `sync_crawled_pages_user_id`, which
sets `user_id = NEW.user_id` on every crawled page with
`source_id = NEW.source_id`. -/
def update_source_user_id (db : Database) (sid : Nat)
    (new_owner : Option Nat) : Database :=
  let db1 := { db with archon_sources := db.archon_sources.map (fun (s : SourceRow) =>
    if s.source_id == sid then { s with user_id := new_owner } else s) }
  { db1 with archon_crawled_pages := db1.archon_crawled_pages.map (fun (p : CrawledPageRow) =>
    if p.source_id == sid then { p with user_id := new_owner } else p) }

/-- Embedding of an UPDATE of `archon_projects.user_id` for one project
id, followed by the AFTER UPDATE triggers `sync_tasks_user_id` (updates
tasks of the project whose `assigned_user_id IS NULL`) and
`sync_project_sources_user_id` (updates every project-source link of the
project). -/
def update_project_user_id (db : Database) (pid : Nat)
    (new_owner : Option Nat) : Database :=
  let db1 := { db with archon_projects := db.archon_projects.map (fun (pr : ProjectRow) =>
    if pr.id == pid then { pr with user_id := new_owner } else pr) }
  let db2 := { db1 with archon_tasks := db1.archon_tasks.map (fun (t : TaskRow) =>
    if t.project_id == pid && t.assigned_user_id == none then
      { t with user_id := new_owner } else t) }
  { db2 with archon_project_sources := db2.archon_project_sources.map (fun (l : ProjectSourceRow) =>
    if l.project_id == pid then { l with user_id := new_owner } else l) }

/-- Relation describing one row's owner before/after a bulk transfer from
subject A to subject B. -/
def owner_moved (a b : Nat) (oldOwner newOwner : Option Nat) : Prop :=
  (oldOwner = some a → newOwner = some b) ∧
  (oldOwner ≠ some a → newOwner = oldOwner)

/-
  Helper lemmas about profile tables with unique ids.
-/

lemma mem_unique_of_nodup_ids {ps : ProfileTable}
    (hnd : (ps.map (fun p => p.id)).Nodup)
    {p q : UserProfile} (hp : p ∈ ps) (hq : q ∈ ps) (h : p.id = q.id) :
    p = q :=
  List.inj_on_of_nodup_map hnd hp hq h

lemma countP_id_le_one (t : Nat) :
    ∀ ps : ProfileTable, (ps.map (fun p => p.id)).Nodup →
      ps.countP (fun p => p.id == t) ≤ 1 := by
  intro ps
  induction ps with
  | nil => intro _; simp
  | cons p ps ih =>
    intro hnd
    rw [List.map_cons, List.nodup_cons] at hnd
    rw [List.countP_cons]
    by_cases hpt : p.id = t
    · have hzero : ps.countP (fun q => q.id == t) = 0 := by
        rw [List.countP_eq_zero]
        intro q hq hqt
        have hqt2 : q.id = t := by simpa using hqt
        have hmem : q.id ∈ ps.map (fun x => x.id) :=
          List.mem_map_of_mem (fun x => x.id) hq
        rw [hqt2, ← hpt] at hmem
        exact hnd.1 hmem
      simp [hzero, hpt]
    · have hb : ((fun q => q.id == t) p) = false := by simp [hpt]
      simp only [hb]
      simpa using ih hnd.2

lemma countP_le_map_add (pred : UserProfile → Bool)
    (g : UserProfile → UserProfile) (t : Nat)
    (hg : ∀ p : UserProfile, p.id ≠ t → g p = p) :
    ∀ ps : ProfileTable,
      ps.countP pred ≤ (ps.map g).countP pred +
        ps.countP (fun p => p.id == t) := by
  intro ps
  induction ps with
  | nil => simp
  | cons p ps ih =>
    rw [List.map_cons, List.countP_cons, List.countP_cons, List.countP_cons]
    by_cases hpt : p.id = t
    · have hb : ((fun q => q.id == t) p) = true := by simp [hpt]
      simp only [hb, if_true]
      have h1 : (if pred p = true then 1 else 0) ≤ 1 := by
        split <;> omega
      omega
    · have hb : ((fun q => q.id == t) p) = false := by simp [hpt]
      rw [hg p hpt]
      simp only [hb]
      omega

lemma storedRole_eq_of_mem {ps : ProfileTable}
    (hnd : (ps.map (fun p => p.id)).Nodup)
    {p : UserProfile} (hp : p ∈ ps) {t : Nat} (hid : p.id = t) :
    storedRole ps t = some p.role := by
  unfold storedRole
  cases hfind : ps.find? (fun q => q.id == t) with
  | none =>
    exfalso
    have := List.find?_eq_none.mp hfind p hp
    simp [hid] at this
  | some q =>
    have hq1 := List.find?_some hfind
    have hq2 : q ∈ ps := List.mem_of_find?_eq_some hfind
    have hq3 : q.id = t := by simpa using hq1
    have : q = p := mem_unique_of_nodup_ids hnd hq2 hp (by rw [hq3, hid])
    simp [this]

lemma activeStoredRole_eq_of_mem {ps : ProfileTable}
    (hnd : (ps.map (fun p => p.id)).Nodup)
    {p : UserProfile} (hp : p ∈ ps) {t : Nat} (hid : p.id = t)
    (hact : p.is_active = true) :
    activeStoredRole ps t = some p.role := by
  unfold activeStoredRole
  cases hfind : ps.find? (fun q => q.id == t && q.is_active) with
  | none =>
    exfalso
    have := List.find?_eq_none.mp hfind p hp
    simp [hid, hact] at this
  | some q =>
    have hq1 := List.find?_some hfind
    have hq2 : q ∈ ps := List.mem_of_find?_eq_some hfind
    have hq3 : q.id = t := by
      have h2 := (Bool.and_eq_true _ _).mp hq1
      simpa using h2.1
    have : q = p := mem_unique_of_nodup_ids hnd hq2 hp (by rw [hq3, hid])
    simp [this]

lemma current_user_role_eq_activeStoredRole (ps : ProfileTable) (uid : Nat) :
    current_user_role ps uid = activeStoredRole ps uid := rfl

lemma map_id_forceUpdateRole (ps : ProfileTable) (t : Nat) (r : String) :
    (forceUpdateRole ps t r).map (fun p => p.id) =
      ps.map (fun p => p.id) := by
  unfold forceUpdateRole
  rw [List.map_map]
  apply List.map_congr_left
  intro p _
  by_cases h : p.id = t <;> simp [h]

lemma map_id_forceDeactivate (ps : ProfileTable) (t : Nat) :
    (forceDeactivate ps t).map (fun p => p.id) = ps.map (fun p => p.id) := by
  unfold forceDeactivate
  rw [List.map_map]
  apply List.map_congr_left
  intro p _
  by_cases h : p.id = t <;> simp [h]

lemma update_user_role_ok_inv {ps : ProfileTable} {c t : Nat} {r : String}
    {ps2 : ProfileTable}
    (h : update_user_role ps c t r = Except.ok ps2) :
    is_admin ps c = true ∧ validRole r = true ∧
      ¬(r ≠ "admin" ∧ activeAdminCount ps = 1 ∧
        storedRole ps t = some "admin") ∧
      ps2 = forceUpdateRole ps t r := by
  unfold update_user_role at h
  split at h
  · exact absurd h (by simp)
  · split at h
    · exact absurd h (by simp)
    · split at h
      · exact absurd h (by simp)
      · rename_i hA hV hG
        refine ⟨by simpa using hA, by simpa using hV, ?_, by
          simpa using h.symm⟩
        intro hc
        apply hG
        simp [hc.1, hc.2.1, hc.2.2]

lemma deactivate_user_ok_inv {ps : ProfileTable} {c t : Nat}
    {ps2 : ProfileTable}
    (h : deactivate_user ps c t = Except.ok ps2) :
    is_admin ps c = true ∧
      ¬(activeAdminCount ps = 1 ∧ activeStoredRole ps t = some "admin") ∧
      ps2 = forceDeactivate ps t := by
  unfold deactivate_user at h
  split at h
  · exact absurd h (by simp)
  · split at h
    · exact absurd h (by simp)
    · rename_i hA hG
      refine ⟨by simpa using hA, ?_, by simpa using h.symm⟩
      intro hc
      apply hG
      simp [hc.1, hc.2]

lemma applyOp_map_id (ps : ProfileTable) (op : AdminOp) :
    (applyOp ps op).map (fun p => p.id) = ps.map (fun p => p.id) := by
  cases op with
  | updateRole c t r =>
    cases h : update_user_role ps c t r with
    | ok ps2 =>
      have h2 := (update_user_role_ok_inv h).2.2.2
      simp only [applyOp, h, h2, map_id_forceUpdateRole]
    | error e => simp only [applyOp, h]
  | deactivate c t =>
    cases h : deactivate_user ps c t with
    | ok ps2 =>
      have h2 := (deactivate_user_ok_inv h).2.2
      simp only [applyOp, h, h2, map_id_forceDeactivate]
    | error e => simp only [applyOp, h]

lemma count_forceUpdateRole_admin (ps : ProfileTable) (t : Nat) :
    activeAdminCount ps ≤ activeAdminCount (forceUpdateRole ps t "admin") := by
  unfold activeAdminCount forceUpdateRole
  rw [List.countP_map]
  apply List.countP_mono_left
  intro p _ hp
  have h1 : p.role = "admin" := by
    have := (Bool.and_eq_true _ _).mp hp
    simpa using this.1
  have h2 : p.is_active = true := by
    have := (Bool.and_eq_true _ _).mp hp
    simpa using this.2
  by_cases h : p.id = t <;> simp [h, h1, h2]

lemma count_forceUpdateRole_notTargetAdmin {ps : ProfileTable} {t : Nat}
    {r : String}
    (hnd : (ps.map (fun p => p.id)).Nodup)
    (hr : r ≠ "admin")
    (hst : storedRole ps t ≠ some "admin") :
    activeAdminCount (forceUpdateRole ps t r) = activeAdminCount ps := by
  unfold activeAdminCount forceUpdateRole
  rw [List.countP_map]
  apply List.countP_congr
  intro p hp
  by_cases h : p.id = t
  · have hrole : p.role ≠ "admin" := by
      intro hcontra
      exact hst (by rw [storedRole_eq_of_mem hnd hp h, hcontra])
    simp [h, hr, hrole]
  · simp [h]

lemma count_forceDeactivate_notActiveAdmin {ps : ProfileTable} {t : Nat}
    (hnd : (ps.map (fun p => p.id)).Nodup)
    (hst : activeStoredRole ps t ≠ some "admin") :
    activeAdminCount (forceDeactivate ps t) = activeAdminCount ps := by
  unfold activeAdminCount forceDeactivate
  rw [List.countP_map]
  apply List.countP_congr
  intro p hp
  by_cases h : p.id = t
  · by_cases hact : p.is_active = true
    · have hrole : p.role ≠ "admin" := by
        intro hcontra
        exact hst (by rw [activeStoredRole_eq_of_mem hnd hp h hact, hcontra])
      simp [h, hrole]
    · have hact2 : p.is_active = false := by
        cases hb : p.is_active
        · rfl
        · exact absurd hb hact
      simp [h, hact2]
  · simp [h]

lemma count_forceUpdateRole_ge_sub (ps : ProfileTable) (t : Nat) (r : String)
    (hnd : (ps.map (fun p => p.id)).Nodup) :
    activeAdminCount ps ≤ activeAdminCount (forceUpdateRole ps t r) + 1 := by
  have h1 := countP_le_map_add (fun p => p.role == "admin" && p.is_active)
    (fun p => if p.id == t then { p with role := r } else p) t
    (by intro p h; simp [h]) ps
  have h2 := countP_id_le_one t ps hnd
  unfold activeAdminCount forceUpdateRole
  omega

lemma count_forceDeactivate_ge_sub (ps : ProfileTable) (t : Nat)
    (hnd : (ps.map (fun p => p.id)).Nodup) :
    activeAdminCount ps ≤ activeAdminCount (forceDeactivate ps t) + 1 := by
  have h1 := countP_le_map_add (fun p => p.role == "admin" && p.is_active)
    (fun p => if p.id == t then { p with is_active := false } else p) t
    (by intro p h; simp [h]) ps
  have h2 := countP_id_le_one t ps hnd
  unfold activeAdminCount forceDeactivate
  omega

lemma applyOp_count_ge {ps : ProfileTable}
    (hnd : (ps.map (fun p => p.id)).Nodup)
    (h1 : 1 ≤ activeAdminCount ps) (op : AdminOp) :
    1 ≤ activeAdminCount (applyOp ps op) := by
  cases op with
  | updateRole c t r =>
    cases h : update_user_role ps c t r with
    | error e => simpa only [applyOp, h] using h1
    | ok ps2 =>
      obtain ⟨_, _, hG, hps2⟩ := update_user_role_ok_inv h
      simp only [applyOp, h, hps2]
      by_cases hr : r = "admin"
      · subst hr
        exact le_trans h1 (count_forceUpdateRole_admin ps t)
      · rcases not_and_or.mp hG with hcontra | hrest
        · exact absurd hr hcontra
        · rcases not_and_or.mp hrest with hcount | hst
          · have hc2 : 2 ≤ activeAdminCount ps := by omega
            have hc3 := count_forceUpdateRole_ge_sub ps t r hnd
            omega
          · rw [count_forceUpdateRole_notTargetAdmin hnd hr hst]
            exact h1
  | deactivate c t =>
    cases h : deactivate_user ps c t with
    | error e => simpa only [applyOp, h] using h1
    | ok ps2 =>
      obtain ⟨_, hG, hps2⟩ := deactivate_user_ok_inv h
      simp only [applyOp, h, hps2]
      rcases not_and_or.mp hG with hcount | hst
      · have hc2 : 2 ≤ activeAdminCount ps := by omega
        have hc3 := count_forceDeactivate_ge_sub ps t hnd
        omega
      · rw [count_forceDeactivate_notActiveAdmin hnd hst]
        exact h1

lemma runOps_count_ge {ps : ProfileTable}
    (hnd : (ps.map (fun p => p.id)).Nodup)
    (h1 : 1 ≤ activeAdminCount ps) (ops : List AdminOp) :
    1 ≤ activeAdminCount (runOps ps ops) := by
  induction ops generalizing ps with
  | nil => exact h1
  | cons op ops ih =>
    have hnd2 : ((applyOp ps op).map (fun p => p.id)).Nodup := by
      rw [applyOp_map_id]; exact hnd
    exact ih hnd2 (applyOp_count_ge hnd h1 op)

lemma current_user_role_eq_of_active_mem {ps : ProfileTable}
    (hnd : (ps.map (fun p => p.id)).Nodup)
    {q : UserProfile} (hq : q ∈ ps) {uid : Nat} (hid : q.id = uid)
    (hact : q.is_active = true) :
    current_user_role ps uid = some q.role := by
  rw [current_user_role_eq_activeStoredRole]
  exact activeStoredRole_eq_of_mem hnd hq hid hact

lemma current_user_role_none_of_inactive {ps : ProfileTable}
    (hnd : (ps.map (fun p => p.id)).Nodup)
    {q : UserProfile} (hq : q ∈ ps) {uid : Nat} (hid : q.id = uid)
    (hinact : q.is_active = false) :
    current_user_role ps uid = none := by
  unfold current_user_role
  cases hfind : ps.find? (fun p => p.id == uid && p.is_active) with
  | none => rfl
  | some x =>
    exfalso
    have hx1 := List.find?_some hfind
    have hx2 : x ∈ ps := List.mem_of_find?_eq_some hfind
    have hx3 := (Bool.and_eq_true _ _).mp hx1
    have hxid : x.id = uid := by simpa using hx3.1
    have hxact : x.is_active = true := hx3.2
    have : x = q := mem_unique_of_nodup_ids hnd hx2 hq (by rw [hxid, hid])
    rw [this] at hxact
    rw [hinact] at hxact
    exact Bool.false_ne_true hxact

lemma forall2_map_right {α β : Type} (R : α → β → Prop) (f : α → β)
    (l : List α) (h : ∀ a ∈ l, R a (f a)) :
    List.Forall₂ R l (l.map f) := by
  induction l with
  | nil => exact List.Forall₂.nil
  | cons a l ih =>
    exact List.Forall₂.cons (h a (by simp))
      (ih fun a2 ha => h a2 (by simp [ha]))

lemma registerAll_fold_roles (rest : List (Nat × String)) :
    ∀ ps : ProfileTable, ps ≠ [] →
      (rest.foldl (fun ps r => handle_new_user ps r.1 r.2) ps).map
          (fun p => p.role) =
        ps.map (fun p => p.role) ++ rest.map (fun _ => "user") := by
  induction rest with
  | nil => intro ps _; simp
  | cons x rest ih =>
    intro ps hne
    have hlen : ps.length ≠ 0 := by
      intro hc
      exact hne (List.length_eq_zero.mp hc)
    have hstep : handle_new_user ps x.1 x.2 =
        ps ++ [⟨x.1, x.2, "user", true⟩] := by
      unfold handle_new_user
      simp [hlen]
    have hne2 : handle_new_user ps x.1 x.2 ≠ [] := by
      rw [hstep]
      simp
    calc ((x :: rest).foldl (fun ps r => handle_new_user ps r.1 r.2) ps).map
            (fun p => p.role)
        = (rest.foldl (fun ps r => handle_new_user ps r.1 r.2)
            (handle_new_user ps x.1 x.2)).map (fun p => p.role) := rfl
      _ = (handle_new_user ps x.1 x.2).map (fun p => p.role) ++
            rest.map (fun _ => "user") := ih _ hne2
      _ = ps.map (fun p => p.role) ++
            ("user" :: rest.map (fun _ => "user")) := by
            rw [hstep]; simp
      _ = ps.map (fun p => p.role) ++
            (x :: rest).map (fun _ => "user") := by simp

/-
  Claim theorems.
-/

/-- C9: on registration, the first subject created in an empty system is
auto-assigned role 'admin'; any registration into a non-empty profiles
table assigns role 'user'; hence in any chain of registrations from an
empty system the first subject is admin and all later ones are 'user'. -/
theorem archon_c9_first_admin :
    (∀ i e, (handle_new_user [] i e).map (fun p => p.role) = ["admin"]) ∧
    (∀ ps i e, ps ≠ [] →
       (handle_new_user ps i e).map (fun p => p.role) =
         ps.map (fun p => p.role) ++ ["user"]) ∧
    (∀ r rest, (registerAll (r :: rest)).map (fun p => p.role) =
       "admin" :: rest.map (fun _ => "user")) := by
  refine ⟨?_, ?_, ?_⟩
  · intro i e
    simp [handle_new_user]
  · intro ps i e hne
    have hlen : ps.length ≠ 0 := by
      intro hc
      exact hne (List.length_eq_zero.mp hc)
    unfold handle_new_user
    simp [hlen]
  · intro r rest
    unfold registerAll
    have hfirst : handle_new_user [] r.1 r.2 = [⟨r.1, r.2, "admin", true⟩] := by
      simp [handle_new_user]
    calc ((r :: rest).foldl (fun ps x => handle_new_user ps x.1 x.2) []).map
            (fun p => p.role)
        = (rest.foldl (fun ps x => handle_new_user ps x.1 x.2)
            (handle_new_user [] r.1 r.2)).map (fun p => p.role) := rfl
      _ = (handle_new_user [] r.1 r.2).map (fun p => p.role) ++
            rest.map (fun _ => "user") :=
          registerAll_fold_roles rest _ (by rw [hfirst]; simp)
      _ = "admin" :: rest.map (fun _ => "user") := by rw [hfirst]; simp

/-- Witness for C9: concrete two-subject registration chain; the first
subject gets role 'admin', the second role 'user'. -/
theorem archon_c9_witness :
    (handle_new_user [] 1 "first@x").map (fun p => p.role) = ["admin"] ∧
    (handle_new_user [⟨1, "first@x", "admin", true⟩] 2 "second@x").map
        (fun p => p.role) = ["admin", "user"] := by
  constructor
  · exact archon_c9_first_admin.1 1 "first@x"
  · have h := archon_c9_first_admin.2.1 [⟨1, "first@x", "admin", true⟩]
      2 "second@x" (by simp)
    simpa using h

/-- C10: the client `hasRole` is exact equality against the loaded
profile's role: false with no profile; for a loaded profile true for
exactly the stored role string; an admin profile fails any other required
role, so a route guard requiring role 'user' denies an admin, and a
`RoleGuard` requiring one of ['user', 'viewer'] denies an admin. -/
theorem archon_c10_hasRole_exact (p : ClientProfile) (r : String) :
    (hasRole none r = false) ∧
    (hasRole (some p) r = true ↔ r = p.role) ∧
    (p.role = "admin" → r ≠ "admin" → hasRole (some p) r = false) ∧
    (p.role = "admin" →
       hasRequiredRole (some p) (RoleReq.anyOf ["user", "viewer"]) = false) ∧
    (p.role = "admin" →
       ProtectedRoute { requiredRole := some "user" } false (some p.id)
           (some p) "/" = RouteOutcome.roleDenied "user" "admin") := by
  refine ⟨rfl, ?_, ?_, ?_, ?_⟩
  · constructor
    · intro h
      have h2 : p.role = r := by simpa [hasRole] using h
      exact h2.symm
    · intro h
      simp [hasRole, h]
  · intro hadmin hne
    simp [hasRole, hadmin]
    intro hc
    exact hne hc.symm
  · intro hadmin
    simp [hasRequiredRole, hasRole, hadmin]
  · intro hadmin
    simp [ProtectedRoute, hasRole, hadmin, profileRoleText]

/-- Witness for C10 at a concrete admin profile and the role 'user'. -/
theorem archon_c10_witness :
    (hasRole none "user" = false) ∧
    (hasRole (some ⟨"1", "admin", true⟩) "user" = true ↔ "user" = "admin") ∧
    ("admin" = "admin" → "user" ≠ "admin" →
       hasRole (some (⟨"1", "admin", true⟩ : ClientProfile)) "user" = false) ∧
    ("admin" = "admin" →
       hasRequiredRole (some ⟨"1", "admin", true⟩)
         (RoleReq.anyOf ["user", "viewer"]) = false) ∧
    ("admin" = "admin" →
       ProtectedRoute { requiredRole := some "user" } false (some "1")
           (some ⟨"1", "admin", true⟩) "/" =
         RouteOutcome.roleDenied "user" "admin") :=
  archon_c10_hasRole_exact ⟨"1", "admin", true⟩ "user"

/-- C6 (code behavior at the claimed inputs): the guard redirects an
unauthenticated subject to /login carrying the intended destination, and
renders an inline role denial naming required and actual role for an
authenticated subject failing a role check — but for an authenticated
subject whose profile has is_active = false and no role/permission
requirement it renders the protected children: the component has no
"account deactivated" branch, contradicting its own test suite. -/
theorem archon_c6_route_guard_behavior :
    (∀ loc : String, ProtectedRoute {} false none none loc =
       RouteOutcome.redirectToLogin loc) ∧
    (ProtectedRoute { requiredRole := some "admin" } false (some "user-123")
        (some ⟨"user-123", "user", true⟩) "/" =
       RouteOutcome.roleDenied "admin" "user") ∧
    (ProtectedRoute {} false (some "user-123")
        (some ⟨"user-123", "user", false⟩) "/" =
       RouteOutcome.renderChildren) := by
  refine ⟨?_, rfl, rfl⟩
  intro loc
  rfl

/-- C3 counterexample: a profile whose stored role is 'admin' but whose
active flag is false. The claim demands is_admin be false for it in every
execution context, yet the client-side isAdmin returns true, while the
SQL is_admin returns false on the same data. -/
theorem archon_c3_counterexample :
    isAdmin (some ⟨"1", "admin", false⟩) = true ∧
    is_admin [⟨1, "a@x", "admin", false⟩] 1 = false := by
  exact ⟨rfl, rfl⟩

/-- C3 amended: the SQL is_admin is true exactly when an active profile
row with role 'admin' and the caller's id exists; the client-side isAdmin
tests only the stored role and is insensitive to the active flag (and
false with no profile). -/
theorem archon_c3_is_admin_semantics :
    (∀ (ps : ProfileTable) (uid : Nat),
       is_admin ps uid = true ↔
         ∃ p ∈ ps, p.id = uid ∧ p.role = "admin" ∧ p.is_active = true) ∧
    (∀ (p : ClientProfile) (b : Bool),
       isAdmin (some { p with is_active := b }) = isAdmin (some p)) ∧
    (isAdmin none = false) := by
  refine ⟨?_, ?_, rfl⟩
  · intro ps uid
    unfold is_admin has_role
    rw [List.any_eq_true]
    constructor
    · rintro ⟨p, hp, hpred⟩
      have h1 := (Bool.and_eq_true _ _).mp hpred
      have h2 := (Bool.and_eq_true _ _).mp h1.1
      exact ⟨p, hp, by simpa using h2.1, by simpa using h2.2, h1.2⟩
    · rintro ⟨p, hp, hid, hrole, hact⟩
      exact ⟨p, hp, by simp [hid, hrole, hact]⟩
  · intro p b
    simp [isAdmin]

/-- C2 counterexample: a subject whose stored role is 'viewer' but whose
active flag is false, viewing a resource owned by a different subject.
The claim's condition holds (the subject's role is 'viewer') yet
user_can_view returns false, because the SQL helper resolves the role
through current_user_role, which ignores inactive rows. -/
theorem archon_c2_counterexample :
    storedRole [⟨10, "v@x", "viewer", false⟩] 10 = some "viewer" ∧
    user_can_view [⟨10, "v@x", "viewer", false⟩] 10 (some 1) none = false := by
  exact ⟨rfl, rfl⟩

/-- C2 amended: for a subject with a (unique) profile row, user_can_view
is true exactly when the subject owns the resource, is its assignee, is
ACTIVE with role 'admin' or 'viewer', or the resource is unowned; and
user_can_edit is true exactly when the subject owns the resource, is its
assignee, or is an active admin. In particular an assignee B may edit a
task owned by A even though B is not the owner. -/
theorem archon_c2_predicate_semantics (ps : ProfileTable)
    (hnd : (ps.map (fun p => p.id)).Nodup)
    (uid : Nat) (q : UserProfile) (hq : q ∈ ps) (hid : q.id = uid)
    (own asn : Option Nat) :
    (user_can_view ps uid own asn = true ↔
       some uid = own ∨ some uid = asn ∨
       (q.is_active = true ∧ (q.role = "admin" ∨ q.role = "viewer")) ∨
       own = none) ∧
    (user_can_edit ps uid own asn = true ↔
       some uid = own ∨ some uid = asn ∨
       (q.is_active = true ∧ q.role = "admin")) ∧
    (∀ (ps2 : ProfileTable) (a b : Nat),
       user_can_edit ps2 b (some a) (some b) = true) := by
  by_cases hact : q.is_active = true
  · have hcur : current_user_role ps uid = some q.role :=
      current_user_role_eq_of_active_mem hnd hq hid hact
    refine ⟨?_, ?_, ?_⟩
    · simp only [user_can_view, hcur, hact]
      simp
      try tauto
    · simp only [user_can_edit, hcur, hact]
      simp
      try tauto
    · intro ps2 a b
      simp [user_can_edit]
  · have hf : q.is_active = false := Bool.eq_false_iff.mpr hact
    have hcur : current_user_role ps uid = none :=
      current_user_role_none_of_inactive hnd hq hid hf
    refine ⟨?_, ?_, ?_⟩
    · simp only [user_can_view, hcur, hf]
      simp
      try tauto
    · simp only [user_can_edit, hcur, hf]
      simp
      try tauto
    · intro ps2 a b
      simp [user_can_edit]

/-- Witness for C2 at concrete inputs: an active viewer can view but not
edit a resource owned by a different subject, and an assignee can edit
the task assigned to them. -/
theorem archon_c2_witness :
    user_can_view [⟨1, "a@x", "viewer", true⟩] 1 (some 2) none = true ∧
    user_can_edit [⟨1, "a@x", "viewer", true⟩] 1 (some 2) none = false ∧
    user_can_edit [] 7 (some 3) (some 7) = true := by
  have h := archon_c2_predicate_semantics [⟨1, "a@x", "viewer", true⟩]
    (by decide) 1 ⟨1, "a@x", "viewer", true⟩ (by simp) rfl (some 2) none
  refine ⟨h.1.mpr (Or.inr (Or.inr (Or.inl ⟨rfl, Or.inr rfl⟩))), ?_,
    h.2.2 [] 3 7⟩
  cases hb : user_can_edit [⟨1, "a@x", "viewer", true⟩] 1 (some 2) none with
  | false => rfl
  | true =>
    exfalso
    rcases h.2.1.mp hb with hc | hc | hc
    · exact absurd hc (by decide)
    · exact absurd hc (by decide)
    · exact absurd hc.2 (by decide)

/-- C1 counterexample: a subject with role 'user' owning a resource. The
server-side user_can_edit allows (owner), but the client hasPermission
denies the 'delete' action for the 'user' role — a combination where the
server-side predicate allows an operation and the client denies it, which
the claim says cannot exist. -/
theorem archon_c1_counterexample :
    user_can_edit [⟨1, "u@x", "user", true⟩] 1 (some 1) none = true ∧
    hasPermission (some ⟨"1", "user", true⟩) "projects" "delete" = false := by
  exact ⟨rfl, rfl⟩

/-- C1 amended: the client mirror agrees with the server predicates only
for active admin subjects, for whom both layers allow every action on
every resource; for other roles hasPermission ignores ownership and
assignment and diverges from user_can_edit / user_can_view. -/
theorem archon_c1_agreement_for_admins
    (p : ClientProfile) (hp : p.role = "admin")
    (ps : ProfileTable) (uid : Nat) (q : UserProfile)
    (hnd : (ps.map (fun x => x.id)).Nodup) (hq : q ∈ ps)
    (hid : q.id = uid) (hrole : q.role = "admin") (hact : q.is_active = true)
    (res act : String) (own asn : Option Nat) :
    hasPermission (some p) res act = true ∧
    user_can_view ps uid own asn = true ∧
    user_can_edit ps uid own asn = true := by
  have hcur : current_user_role ps uid = some q.role :=
    current_user_role_eq_of_active_mem hnd hq hid hact
  refine ⟨by simp [hasPermission, hp], ?_, ?_⟩
  · simp [user_can_view, hcur, hrole]
  · simp [user_can_edit, hcur, hrole]

/-- Witness for C1 at a concrete active admin. -/
theorem archon_c1_witness :
    hasPermission (some ⟨"1", "admin", true⟩) "projects" "delete" = true ∧
    user_can_view [⟨1, "a@x", "admin", true⟩] 1 (some 2) none = true ∧
    user_can_edit [⟨1, "a@x", "admin", true⟩] 1 (some 2) none = true :=
  archon_c1_agreement_for_admins ⟨"1", "admin", true⟩ rfl
    [⟨1, "a@x", "admin", true⟩] 1 ⟨1, "a@x", "admin", true⟩ (by decide)
    (by simp) rfl rfl rfl "projects" "delete" (some 2) none

/-- C5 counterexample: a guest subject viewing an unowned resource of a
kind outside the allow-list ('tasks'). The claim requires the view
decision to be false in both layers, but the SQL user_can_view — which
takes no resource-kind input — returns true, while the client denies. -/
theorem archon_c5_counterexample :
    user_can_view [⟨5, "g@x", "guest", true⟩] 5 none none = true ∧
    hasPermission (some ⟨"5", "guest", true⟩) "tasks" "read" = false := by
  exact ⟨rfl, rfl⟩

/-- C5 amended: the guest allow-list {knowledge, projects} is implemented
only in the client hasPermission (read is granted exactly for those two
resource kinds and every non-read action is denied); the SQL
user_can_view grants view of any unowned resource to any subject,
regardless of resource kind. -/
theorem archon_c5_guest_allowlist :
    (∀ p : ClientProfile, p.role = "guest" → ∀ res : String,
       (hasPermission (some p) res "read" = true ↔
         res = "knowledge" ∨ res = "projects")) ∧
    (∀ p : ClientProfile, p.role = "guest" → ∀ res act : String,
       act ≠ "read" → hasPermission (some p) res act = false) ∧
    (∀ (ps : ProfileTable) (uid : Nat) (asn : Option Nat),
       user_can_view ps uid none asn = true) := by
  refine ⟨?_, ?_, ?_⟩
  · intro p hg res
    simp [hasPermission, hg]
  · intro p hg res act hne
    simp [hasPermission, hg, hne]
  · intro ps uid asn
    simp [user_can_view]

/-- Witness for C5 at concrete inputs: guest read allowed on 'knowledge',
guest write denied, and the SQL predicate lets any subject view an
unowned resource. -/
theorem archon_c5_witness :
    (hasPermission (some ⟨"5", "guest", true⟩) "knowledge" "read" = true ↔
       ("knowledge" : String) = "knowledge" ∨
         ("knowledge" : String) = "projects") ∧
    hasPermission (some ⟨"5", "guest", true⟩) "knowledge" "update" = false ∧
    user_can_view [⟨5, "g@x", "guest", true⟩] 5 none none = true := by
  refine ⟨archon_c5_guest_allowlist.1 ⟨"5", "guest", true⟩ rfl "knowledge",
    archon_c5_guest_allowlist.2.1 ⟨"5", "guest", true⟩ rfl "knowledge"
      "update" (by decide),
    archon_c5_guest_allowlist.2.2 [⟨5, "g@x", "guest", true⟩] 5 none⟩

lemma update_user_role_lastAdmin_iff (ps : ProfileTable) (c t : Nat)
    (r : String) :
    update_user_role ps c t r = Except.error AuthError.lastAdmin ↔
      (is_admin ps c = true ∧ validRole r = true ∧ r ≠ "admin" ∧
       activeAdminCount ps = 1 ∧ storedRole ps t = some "admin") := by
  unfold update_user_role
  by_cases hA : is_admin ps c = true
  · by_cases hV : validRole r = true
    · by_cases hG : (r != "admin" && activeAdminCount ps == 1 &&
          storedRole ps t == some "admin") = true
      · have hG2 := hG
        simp only [Bool.and_eq_true, bne_iff_ne, beq_iff_eq] at hG2
        simp [hA, hV, hG]
        exact ⟨hG2.1.1, hG2.1.2, hG2.2⟩
      · simp [hA, hV, hG]
        intro h2 h3 h4
        exact absurd (by simp [h2, h3, h4] : (r != "admin" &&
          activeAdminCount ps == 1 && storedRole ps t == some "admin") = true)
          hG
    · simp [hA, hV]
  · simp [hA]

lemma deactivate_user_lastAdmin_iff (ps : ProfileTable) (c t : Nat) :
    deactivate_user ps c t = Except.error AuthError.lastAdmin ↔
      (is_admin ps c = true ∧ activeAdminCount ps = 1 ∧
       activeStoredRole ps t = some "admin") := by
  unfold deactivate_user
  by_cases hA : is_admin ps c = true
  · by_cases hG : (activeAdminCount ps == 1 &&
        activeStoredRole ps t == some "admin") = true
    · have hG2 := hG
      simp only [Bool.and_eq_true, beq_iff_eq] at hG2
      simp [hA, hG]
      exact hG2
    · simp [hA, hG]
      intro h2 h3
      exact absurd (by simp [h2, h3] : (activeAdminCount ps == 1 &&
        activeStoredRole ps t == some "admin") = true) hG
  · simp [hA]

/-- C4 counterexample: one active admin (id 1) and one INACTIVE admin
(id 2). Changing the inactive admin's role to 'user' is rejected with the
last-admin error even though applying the change would leave the count of
active admins at 1, not 0 — the code's check ignores the target's active
flag, so rejection is not equivalent to "would reduce the active-admin
count to zero" as the claim states. -/
theorem archon_c4_counterexample :
    update_user_role [⟨1, "a@x", "admin", true⟩, ⟨2, "b@x", "admin", false⟩]
        1 2 "user" = Except.error AuthError.lastAdmin ∧
    activeAdminCount (forceUpdateRole
        [⟨1, "a@x", "admin", true⟩, ⟨2, "b@x", "admin", false⟩]
        2 "user") = 1 := by
  exact ⟨rfl, rfl⟩

/-- C4 amended: starting from a table with unique ids and at least one
active admin, the count of active admins never reaches zero under any
sequence of role-change/deactivation operations; a rejected operation
leaves the table unchanged; update_user_role raises the last-admin error
exactly when the caller is an active admin, the new role is valid and not
'admin', exactly one active admin exists, and the target's STORED role is
'admin' (regardless of the target's active flag); deactivate_user raises
it exactly when the caller is an active admin, exactly one active admin
exists, and the target is an ACTIVE admin. -/
theorem archon_c4_last_admin (ps : ProfileTable)
    (hnd : (ps.map (fun p => p.id)).Nodup)
    (h1 : 1 ≤ activeAdminCount ps) :
    (∀ ops : List AdminOp, 1 ≤ activeAdminCount (runOps ps ops)) ∧
    (∀ (c t : Nat) (r : String) (e : AuthError),
       update_user_role ps c t r = Except.error e →
       applyOp ps (AdminOp.updateRole c t r) = ps) ∧
    (∀ (c t : Nat) (e : AuthError),
       deactivate_user ps c t = Except.error e →
       applyOp ps (AdminOp.deactivate c t) = ps) ∧
    (∀ (c t : Nat) (r : String),
       update_user_role ps c t r = Except.error AuthError.lastAdmin ↔
         (is_admin ps c = true ∧ validRole r = true ∧ r ≠ "admin" ∧
          activeAdminCount ps = 1 ∧ storedRole ps t = some "admin")) ∧
    (∀ (c t : Nat),
       deactivate_user ps c t = Except.error AuthError.lastAdmin ↔
         (is_admin ps c = true ∧ activeAdminCount ps = 1 ∧
          activeStoredRole ps t = some "admin")) := by
  refine ⟨runOps_count_ge hnd h1, ?_, ?_,
    fun c t r => update_user_role_lastAdmin_iff ps c t r,
    fun c t => deactivate_user_lastAdmin_iff ps c t⟩
  · intro c t r e h
    simp only [applyOp, h]
  · intro c t e h
    simp only [applyOp, h]

/-- Witness for C4: a single active admin, a sequence that tries to
deactivate and demote them; the active-admin count stays at least 1. -/
theorem archon_c4_witness :
    1 ≤ activeAdminCount (runOps [⟨1, "a@x", "admin", true⟩]
        [AdminOp.deactivate 1 1, AdminOp.updateRole 1 1 "user"]) :=
  (archon_c4_last_admin [⟨1, "a@x", "admin", true⟩] (by decide)
    (by decide)).1 [AdminOp.deactivate 1 1, AdminOp.updateRole 1 1 "user"]

/-- C7: bulk ownership transfer. A non-admin caller gets the transfer
denied error and the database is unchanged; any error leaves the database
unchanged (all-or-nothing); an admin caller with two existing subjects
always succeeds; and on success every one of the eight resource tables is
re-owned row-by-row: rows owned by the source subject now belong to the
target subject and all other rows keep their owner. -/
theorem archon_c7_transfer (db : Database) (caller fu tu : Nat) :
    (is_admin db.user_profiles caller = false →
       transfer_user_data db caller fu tu =
           Except.error AuthError.transferDenied ∧
       runTransfer db caller fu tu = db) ∧
    (∀ e, transfer_user_data db caller fu tu = Except.error e →
       runTransfer db caller fu tu = db) ∧
    (is_admin db.user_profiles caller = true →
     (∃ p ∈ db.user_profiles, p.id = fu) →
     (∃ p ∈ db.user_profiles, p.id = tu) →
     ∃ db2, transfer_user_data db caller fu tu = Except.ok db2) ∧
    (∀ db2, transfer_user_data db caller fu tu = Except.ok db2 →
       List.Forall₂ (fun (r r2 : SourceRow) =>
           owner_moved fu tu r.user_id r2.user_id)
         db.archon_sources db2.archon_sources ∧
       List.Forall₂ (fun (r r2 : CrawledPageRow) =>
           owner_moved fu tu r.user_id r2.user_id)
         db.archon_crawled_pages db2.archon_crawled_pages ∧
       List.Forall₂ (fun (r r2 : SimpleRow) =>
           owner_moved fu tu r.user_id r2.user_id)
         db.archon_code_examples db2.archon_code_examples ∧
       List.Forall₂ (fun (r r2 : ProjectRow) =>
           owner_moved fu tu r.user_id r2.user_id)
         db.archon_projects db2.archon_projects ∧
       List.Forall₂ (fun (r r2 : TaskRow) =>
           owner_moved fu tu r.user_id r2.user_id)
         db.archon_tasks db2.archon_tasks ∧
       List.Forall₂ (fun (r r2 : ProjectSourceRow) =>
           owner_moved fu tu r.user_id r2.user_id)
         db.archon_project_sources db2.archon_project_sources ∧
       List.Forall₂ (fun (r r2 : SimpleRow) =>
           owner_moved fu tu r.user_id r2.user_id)
         db.archon_document_versions db2.archon_document_versions ∧
       List.Forall₂ (fun (r r2 : SimpleRow) =>
           owner_moved fu tu r.user_id r2.user_id)
         db.archon_prompts db2.archon_prompts) := by
  refine ⟨?_, ?_, ?_, ?_⟩
  · intro h
    have ht : transfer_user_data db caller fu tu =
        Except.error AuthError.transferDenied := by
      unfold transfer_user_data
      simp [h]
    refine ⟨ht, ?_⟩
    unfold runTransfer
    rw [ht]
  · intro e h
    unfold runTransfer
    rw [h]
  · intro hA hfu htu
    have hfu2 : db.user_profiles.any (fun p => p.id == fu) = true := by
      rw [List.any_eq_true]
      obtain ⟨p, hp, hpe⟩ := hfu
      exact ⟨p, hp, by simp [hpe]⟩
    have htu2 : db.user_profiles.any (fun p => p.id == tu) = true := by
      rw [List.any_eq_true]
      obtain ⟨p, hp, hpe⟩ := htu
      exact ⟨p, hp, by simp [hpe]⟩
    unfold transfer_user_data
    simp [hA, hfu2, htu2]
  · intro db2 h
    unfold transfer_user_data at h
    split at h
    · exact absurd h (by simp)
    · split at h
      · exact absurd h (by simp)
      · have hdb : db2 = { db with
          archon_sources := db.archon_sources.map (fun r =>
            if r.user_id == some fu then { r with user_id := some tu }
            else r),
          archon_crawled_pages := db.archon_crawled_pages.map (fun r =>
            if r.user_id == some fu then { r with user_id := some tu }
            else r),
          archon_code_examples := db.archon_code_examples.map (fun r =>
            if r.user_id == some fu then { r with user_id := some tu }
            else r),
          archon_projects := db.archon_projects.map (fun r =>
            if r.user_id == some fu then { r with user_id := some tu }
            else r),
          archon_tasks := db.archon_tasks.map (fun r =>
            if r.user_id == some fu then { r with user_id := some tu }
            else r),
          archon_project_sources := db.archon_project_sources.map (fun r =>
            if r.user_id == some fu then { r with user_id := some tu }
            else r),
          archon_document_versions := db.archon_document_versions.map
            (fun r =>
              if r.user_id == some fu then { r with user_id := some tu }
              else r),
          archon_prompts := db.archon_prompts.map (fun r =>
            if r.user_id == some fu then { r with user_id := some tu }
            else r) } := by
          exact (by simpa using h.symm)
        subst hdb
        refine ⟨?_, ?_, ?_, ?_, ?_, ?_, ?_, ?_⟩ <;>
        · apply forall2_map_right
          intro r _
          refine ⟨fun hr => by simp [hr], fun hr => by simp [hr]⟩

/-- Witness for C7: concrete admin-invoked transfer over a database with
an admin (id 1), a regular user (id 2) and one source owned by subject 2;
the transfer succeeds, and a non-admin caller (id 2) is denied. -/
theorem archon_c7_witness :
    (∃ db2, transfer_user_data
        ⟨[⟨1, "a@x", "admin", true⟩, ⟨2, "b@x", "user", true⟩],
         [⟨100, some 2⟩], [], [], [], [], [], [], []⟩ 1 2 1 =
      Except.ok db2) ∧
    (transfer_user_data
        ⟨[⟨1, "a@x", "admin", true⟩, ⟨2, "b@x", "user", true⟩],
         [⟨100, some 2⟩], [], [], [], [], [], [], []⟩ 2 2 1 =
        Except.error AuthError.transferDenied ∧
     runTransfer
        ⟨[⟨1, "a@x", "admin", true⟩, ⟨2, "b@x", "user", true⟩],
         [⟨100, some 2⟩], [], [], [], [], [], [], []⟩ 2 2 1 =
        ⟨[⟨1, "a@x", "admin", true⟩, ⟨2, "b@x", "user", true⟩],
         [⟨100, some 2⟩], [], [], [], [], [], [], []⟩) :=
  ⟨(archon_c7_transfer _ 1 2 1).2.2.1 (by decide) (by decide) (by decide),
   (archon_c7_transfer _ 2 2 1).1 (by decide)⟩

/-- C8 counterexample: project 1 owned by subject 1 with a task assigned
to subject 2. After the project's owner changes to subject 3 the
sync trigger leaves the assigned task's owner at subject 1: not every
task of the project carries the new owner, contrary to the claim. -/
theorem archon_c8_counterexample :
    (update_project_user_id
        ⟨[], [], [], [], [⟨1, some 1⟩], [⟨10, 1, some 1, some 2⟩],
         [], [], []⟩ 1 (some 3)).archon_projects = [⟨1, some 3⟩] ∧
    (update_project_user_id
        ⟨[], [], [], [], [⟨1, some 1⟩], [⟨10, 1, some 1, some 2⟩],
         [], [], []⟩ 1 (some 3)).archon_tasks =
      [⟨10, 1, some 1, some 2⟩] := by
  exact ⟨rfl, rfl⟩

/-- C8 amended: after an update of a source's owner every crawled page of
that source carries the new owner (and so does the source row); after an
update of a project's owner every project-source link of the project and
every task of the project WITHOUT an assignee carry the new owner, while
every task with an assignee survives unchanged in the tasks table. -/
theorem archon_c8_sync_triggers (db : Database) (sid pid : Nat)
    (owner : Option Nat) :
    (∀ p ∈ (update_source_user_id db sid owner).archon_crawled_pages,
       p.source_id = sid → p.user_id = owner) ∧
    (∀ s ∈ (update_source_user_id db sid owner).archon_sources,
       s.source_id = sid → s.user_id = owner) ∧
    (∀ l ∈ (update_project_user_id db pid owner).archon_project_sources,
       l.project_id = pid → l.user_id = owner) ∧
    (∀ t ∈ (update_project_user_id db pid owner).archon_tasks,
       t.project_id = pid → t.assigned_user_id = none →
       t.user_id = owner) ∧
    (∀ t ∈ db.archon_tasks, t.assigned_user_id ≠ none →
       t ∈ (update_project_user_id db pid owner).archon_tasks) := by
  refine ⟨?_, ?_, ?_, ?_, ?_⟩
  · intro p hp hsid
    simp only [update_source_user_id] at hp
    rcases List.mem_map.mp hp with ⟨q, hq, rfl⟩
    by_cases hc : q.source_id = sid
    · simp [hc]
    · simp [hc] at hsid
  · intro s hs hsid
    simp only [update_source_user_id] at hs
    rcases List.mem_map.mp hs with ⟨q, hq, rfl⟩
    by_cases hc : q.source_id = sid
    · simp [hc]
    · simp [hc] at hsid
  · intro l hl hpid
    simp only [update_project_user_id] at hl
    rcases List.mem_map.mp hl with ⟨q, hq, rfl⟩
    by_cases hc : q.project_id = pid
    · simp [hc]
    · simp [hc] at hpid
  · intro t ht hpid hasn
    simp only [update_project_user_id] at ht
    rcases List.mem_map.mp ht with ⟨q, hq, rfl⟩
    by_cases hc : q.project_id = pid
    · by_cases hc2 : q.assigned_user_id = none
      · simp [hc, hc2]
      · simp [hc, hc2] at hasn
    · simp [hc] at hpid
  · intro t ht hassigned
    simp only [update_project_user_id]
    have hb : (t.assigned_user_id == none) = false := by
      cases ho : t.assigned_user_id with
      | none => exact absurd ho hassigned
      | some v => simp
    have hft : (if t.project_id == pid && t.assigned_user_id == none then
        { t with user_id := owner } else t) = t := by
      simp [hb]
    exact List.mem_map.mpr ⟨t, ht, hft⟩

/-- Witness for C8: concrete database; after the source's owner changes
to subject 9 its crawled page carries owner 9, and the project's task
with an assignee survives the project-owner change unchanged. -/
theorem archon_c8_witness :
    ((⟨7, 100, some 9⟩ : CrawledPageRow).user_id = some 9) ∧
    ((⟨10, 1, some 1, some 2⟩ : TaskRow) ∈ (update_project_user_id
        ⟨[], [⟨100, some 1⟩], [⟨7, 100, some 1⟩], [], [⟨1, some 1⟩],
         [⟨10, 1, some 1, some 2⟩], [⟨20, 1, some 1⟩], [], []⟩
        1 (some 9)).archon_tasks) :=
  ⟨(archon_c8_sync_triggers
      ⟨[], [⟨100, some 1⟩], [⟨7, 100, some 1⟩], [], [⟨1, some 1⟩],
       [⟨10, 1, some 1, some 2⟩], [⟨20, 1, some 1⟩], [], []⟩
      100 1 (some 9)).1 ⟨7, 100, some 9⟩ (by decide) rfl,
   (archon_c8_sync_triggers
      ⟨[], [⟨100, some 1⟩], [⟨7, 100, some 1⟩], [], [⟨1, some 1⟩],
       [⟨10, 1, some 1, some 2⟩], [⟨20, 1, some 1⟩], [], []⟩
      100 1 (some 9)).2.2.2.2 ⟨10, 1, some 1, some 2⟩ (by decide)
      (by decide)⟩

end Archon
